import Mathlib

/-!
Verification of the logr per-target asynchronous delivery engine.

This file gives a shallow embedding of the Go sources (`filterstd.go`,
`metrics.go`, and the target helper containing `Basic`) and proves the
specified properties about them.  Pure Go functions become Lean functions;
the stateful parts of the engine (`Basic.Log`, the worker loop, the flush
drain, `Logr.SetMetricsCollector`) become explicit state-passing functions
on a record of the mutable fields they touch.  Nondeterministic timing
(whether a blocking enqueue succeeds before the enqueue timeout, whether
the worker drains before a shutdown deadline) is represented by an explicit
boolean oracle argument.
-/

set_option autoImplicit false

namespace logr

/-- Modelled from the spec: the color hint attached to a severity level.
The `Color` type and its constants are not among the provided sources
(only their use sites in `filterstd.go` are); the spec describes a color
hint per severity, so colors are embedded as plain numeric codes whose
exact values are irrelevant to every claim below. -/
abbrev Color := Nat

/-- Red color hint (used by `Panic`, `Fatal`, `Error`, `Warn`). -/
def Red : Color := 31

/-- Green color hint (used by `Info`). -/
def Green : Color := 32

/-- Yellow color hint (used by `Debug`). -/
def Yellow : Color := 33

/-- Magenta color hint (used by `Trace`). -/
def Magenta : Color := 35

/-- A severity level: an ordered identifier (lower `ID` = more severe), a
short name, a display label, a color hint, and a stacktrace flag that
`GetEnabledLevel` may set.  The struct layout follows the use sites in
`filterstd.go`; field defaults are the Go zero values. -/
structure Level where
  ID : Nat
  Name : String := ""
  DisplayName : String := ""
  Color : Color := 0
  Stacktrace : Bool := false
deriving DecidableEq

/-- The Go zero value `Level{}` (as produced by `var levelEnabled Level`). -/
def zeroLevel : Level := { ID := 0 }

/-- Panic is the highest level of severity. -/
def Panic : Level := { ID := 0, Name := "panic", DisplayName := "PNC", Color := Red }

/-- Fatal designates a catastrophic error. -/
def Fatal : Level := { ID := 1, Name := "fatal", DisplayName := "FTL", Color := Red }

/-- Error designates a serious but possibly recoverable error. -/
def Error : Level := { ID := 2, Name := "error", DisplayName := "ERR", Color := Red }

/-- Warn designates non-critical error. -/
def Warn : Level := { ID := 3, Name := "warn", DisplayName := "WRN", Color := Red }

/-- Info designates information regarding application events. -/
def Info : Level := { ID := 4, Name := "info", DisplayName := "INF", Color := Green }

/-- Debug designates verbose information typically used for debugging. -/
def Debug : Level := { ID := 5, Name := "debug", DisplayName := "DBG", Color := Yellow }

/-- Trace designates the highest verbosity of log output. -/
def Trace : Level := { ID := 6, Name := "trace", DisplayName := "TRC", Color := Magenta }

/-- StdFilter allows targets to filter via classic log levels where any level
beyond a certain verbosity/severity is enabled (`filterstd.go`). -/
structure StdFilter where
  Lvl : Level
  Stacktrace : Level
deriving DecidableEq

/-- IsEnabled returns true if the specified Level is at or above this
verbosity (`filterstd.go` line 47: `level.ID <= lt.Lvl.ID`). -/
def StdFilter.IsEnabled (lt : StdFilter) (level : Level) : Bool :=
  decide (level.ID ≤ lt.Lvl.ID)

/-- IsStacktraceEnabled returns true if the specified Level requires a
stack trace (`filterstd.go` line 52: `level.ID <= lt.Stacktrace.ID`). -/
def StdFilter.IsStacktraceEnabled (lt : StdFilter) (level : Level) : Bool :=
  decide (level.ID ≤ lt.Stacktrace.ID)

/-- GetEnabledLevel returns the Level with the specified Level.ID and whether
the level is enabled for this filter (`filterstd.go` lines 12-43).  The Go
`switch level.ID` maps a recognized ID back to the named constant and falls
back to the input level otherwise; when not enabled the zero `Level` is
returned (Go `var levelEnabled Level`). -/
def StdFilter.GetEnabledLevel (lt : StdFilter) (level : Level) : Level × Bool :=
  let enabled := decide (level.ID ≤ lt.Lvl.ID)
  let stackTrace := decide (level.ID ≤ lt.Stacktrace.ID)
  let levelEnabled : Level :=
    if enabled then
      if level.ID = Panic.ID then Panic
      else if level.ID = Fatal.ID then Fatal
      else if level.ID = Error.ID then Error
      else if level.ID = Warn.ID then Warn
      else if level.ID = Info.ID then Info
      else if level.ID = Debug.ID then Debug
      else if level.ID = Trace.ID then Trace
      else level
    else zeroLevel
  let levelEnabled := if stackTrace then { levelEnabled with Stacktrace := true } else levelEnabled
  (levelEnabled, enabled)

/-- The Filter capability consumed by a target: enablement and stacktrace
queries per severity (the `Filter` interface referenced by `Basic`). -/
structure Filter where
  IsEnabled : Level → Bool
  IsStacktraceEnabled : Level → Bool

/-- View a `StdFilter` through the `Filter` capability. -/
def StdFilter.toFilter (lt : StdFilter) : Filter :=
  { IsEnabled := lt.IsEnabled, IsStacktraceEnabled := lt.IsStacktraceEnabled }

/-- The filter actually installed by `Basic.Start` (target helper lines
61-64): a nil filter argument is replaced by `&StdFilter{Lvl: Fatal}`,
whose `Stacktrace` threshold is the Go zero `Level`. -/
def Basic.startFilter (filter : Option Filter) : Filter :=
  match filter with
  | none => StdFilter.toFilter { Lvl := Fatal, Stacktrace := zeroLevel }
  | some f => f

/-- A log record, as seen by the delivery engine.  The engine never reads
record content; it only needs an identity (used when formatting the enqueue
timeout error) and the flush tag (`rec.flush != nil` in Go marks the record
as a flush marker rather than an ordinary payload). -/
structure LogRec where
  id : Nat
  flush : Bool := false
deriving DecidableEq

/-- Increment an optional counter: Go's `if counter != nil { counter.Inc() }`
with the counter's running value tracked directly. -/
def incOpt (c : Option Nat) : Option Nat := c.map (· + 1)

/-- The mutable state of a `Basic` engine instance touched by `Log` and the
worker: the queued records (`b.in` channel buffer), its fixed capacity
(`cap(b.in)`), the optional metric counters tracked by value, and the
sequence of errors reported to the owning logger's error sink
(`lgr.ReportError`). -/
structure BasicState where
  queue : List LogRec := []
  cap : Nat := 0
  loggedCounter : Option Nat := none
  errorCounter : Option Nat := none
  droppedCounter : Option Nat := none
  blockedCounter : Option Nat := none
  reported : List String := []
deriving DecidableEq

/-- The error message produced on enqueue timeout (target helper line 131:
`fmt.Errorf("target enqueue timeout for log rec [%v]", rec)`). -/
def enqueueTimeoutMsg (rec : LogRec) : String :=
  "target enqueue timeout for log rec [" ++ toString rec.id ++ "]"

/-- Log outputs the log record to this target's destination (target helper
lines 113-135).  The nonblocking send succeeds exactly when the channel
buffer has room; on a full queue the owning logger's `OnTargetQueueFull`
hook decides between dropping and a bounded blocking enqueue.  Whether the
blocking send wins the race against `time.After(lgr.enqueueTimeout())` is
nondeterministic scheduling, represented by the oracle
`spaceFreesBeforeTimeout`. -/
def Basic.Log (b : BasicState) (rec : LogRec)
    (onTargetQueueFull : Option (LogRec → Nat → Bool))
    (spaceFreesBeforeTimeout : Bool) : BasicState :=
  if b.queue.length < b.cap then
    { b with queue := b.queue ++ [rec] }
  else if (match onTargetQueueFull with
           | some handler => handler rec b.cap
           | none => false) then
    { b with droppedCounter := incOpt b.droppedCounter }
  else
    let b1 := { b with blockedCounter := incOpt b.blockedCounter }
    if spaceFreesBeforeTimeout then
      { b1 with queue := b1.queue ++ [rec] }
    else
      { b1 with reported := b1.reported ++ [enqueueTimeoutMsg rec] }

/-- The flush drain (target helper lines 210-231): nonblocking reads over
whatever is currently queued; redundant flush markers are ignored; a write
error increments the error counter and is reported, a successful write
updates nothing.  The records the drain finds queued are given as the
explicit list argument. -/
def Basic.flush (w : LogRec → Option String) : List LogRec → BasicState → BasicState
  | [], b => b
  | rec :: rest, b =>
    if rec.flush then
      Basic.flush w rest b
    else
      match w rec with
      | some err =>
          Basic.flush w rest
            { b with errorCounter := incOpt b.errorCounter,
                     reported := b.reported ++ [err] }
      | none => Basic.flush w rest b

/-- The worker loop body (target helper lines 168-182): for each dequeued
record, a flush marker hands the rest of the currently queued records to
the flush drain, an ordinary record is written once — a write error
increments the error counter and is reported, a successful write increments
the logged counter.  The sequence of records the worker receives from
`b.in` is given as the explicit list argument. -/
def Basic.start (w : LogRec → Option String) : List LogRec → BasicState → BasicState
  | [], b => b
  | rec :: rest, b =>
    if rec.flush then
      Basic.flush w rest b
    else
      match w rec with
      | some err =>
          Basic.start w rest
            { b with errorCounter := incOpt b.errorCounter,
                     reported := b.reported ++ [err] }
      | none =>
          Basic.start w rest { b with loggedCounter := incOpt b.loggedCounter }

/-- What `Basic.Shutdown` (target helper lines 100-110) does and returns:
it closes the incoming channel, waits on the select between `ctx.Done()`
and `b.done`, and returns nil on both branches.  The oracle
`doneBeforeDeadline` records which select branch fired. -/
structure ShutdownOutcome where
  inClosed : Bool
  doneObserved : Bool
  err : Option String
deriving DecidableEq

/-- Shutdown stops processing log records after making best effort to flush
the queue (target helper lines 100-110).  Both select branches fall through
to `return nil`. -/
def Basic.Shutdown (doneBeforeDeadline : Bool) : ShutdownOutcome :=
  { inClosed := true, doneObserved := doneBeforeDeadline, err := none }

/-- Default metrics update frequency (`metrics.go`): 15 seconds. -/
def DefMetricsUpdateFreqMillis : Int := 15000

/-- The effective tick interval computed at the top of each iteration of
`Basic.startMetricsUpdater` (target helper lines 190-196): a zero
configured frequency falls back to `DefMetricsUpdateFreqMillis`, and
anything below 250 is clamped to 250. -/
def Basic.effectiveUpdateFreq (metricsUpdateFreqMillis : Int) : Int :=
  let updateFreq :=
    if metricsUpdateFreqMillis = 0 then DefMetricsUpdateFreqMillis
    else metricsUpdateFreqMillis
  if updateFreq < 250 then 250 else updateFreq

/-- A gauge handle produced by a `MetricsCollector` (`metrics.go`); only its
identity matters for the properties below, so it is an abstract handle. -/
structure Gauge where
  handle : String
deriving DecidableEq

/-- A counter handle produced by a `MetricsCollector` (`metrics.go`); only
its identity matters for the properties below. -/
structure Counter where
  handle : String
deriving DecidableEq

/-- MetricsCollector provides a way for users of this Logr package to have
metrics pushed to any backend (`metrics.go`): a factory of gauge/counter
handles keyed by target name. -/
structure MetricsCollector where
  QueueSizeGauge : String → Gauge
  LoggedCounter : String → Counter
  ErrorCounter : String → Counter
  DroppedCounter : String → Counter
  BlockedCounter : String → Counter

/-- The fields of the owning `Logr` touched by `SetMetricsCollector`.
`hasTargets` is the result of `logr.HasTargets()` (whether any target has
been added; the target list itself lives outside the provided sources). -/
structure Logr where
  hasTargets : Bool
  metrics : Option MetricsCollector := none
  queueSizeGauge : Option Gauge := none
  loggedCounter : Option Counter := none
  errorCounter : Option Counter := none

/-- SetMetricsCollector enables metrics collection by supplying a
MetricsCollector (`metrics.go` lines 124-137).  This MUST be called before
any log targets are added.  The Go method mutates the receiver and returns
an error; here it returns the updated receiver paired with the optional
error message. -/
def Logr.SetMetricsCollector (l : Logr) (collector : Option MetricsCollector) :
    Logr × Option String :=
  if l.hasTargets then
    (l, some "Logr.SetMetricsCollector must be called before any targets are added.")
  else
    match collector with
    | none => (l, some "collector cannot be nil")
    | some c =>
        ({ l with metrics := some c,
                  queueSizeGauge := some (c.QueueSizeGauge "_logr"),
                  loggedCounter := some (c.LoggedCounter "_logr"),
                  errorCounter := some (c.ErrorCounter "_logr") }, none)

/-! ### Theorems -/

/-- Claim C4: for every Std Filter with thresholds `L` (level) and `S`
(stacktrace), `IsEnabled s` holds iff `rank s ≤ rank L` and
`IsStacktraceEnabled s` holds iff `rank s ≤ rank S`; in particular for
`L = Warn`, `S = Error`: Error is enabled, Info is not, Error requires a
stacktrace, Warn does not. -/
theorem stdFilter_enabled_iff_rank :
    (∀ (L S s : Level),
      (StdFilter.mk L S).IsEnabled s = decide (s.ID ≤ L.ID) ∧
      (StdFilter.mk L S).IsStacktraceEnabled s = decide (s.ID ≤ S.ID)) ∧
    (StdFilter.mk Warn Error).IsEnabled Error = true ∧
    (StdFilter.mk Warn Error).IsEnabled Info = false ∧
    (StdFilter.mk Warn Error).IsStacktraceEnabled Error = true ∧
    (StdFilter.mk Warn Error).IsStacktraceEnabled Warn = false := by
  refine ⟨fun L S s => ⟨rfl, rfl⟩, ?_, ?_, ?_, ?_⟩ <;> decide

/-- Claim C7: Std Filter enablement is monotone in severity rank: a more
severe level (smaller rank) is enabled whenever a less severe one is. -/
theorem stdFilter_enabled_monotone (f : StdFilter) (s1 s2 : Level)
    (hrank : s1.ID < s2.ID) (h2 : f.IsEnabled s2 = true) :
    f.IsEnabled s1 = true := by
  simp only [StdFilter.IsEnabled, decide_eq_true_eq] at h2 ⊢
  omega

/-- Witness for C7 at a concrete filter: with level threshold Warn, Warn is
enabled, hence so is the more severe Error. -/
theorem stdFilter_enabled_monotone_witness :
    Error.ID < Warn.ID ∧
    (StdFilter.mk Warn Error).IsEnabled Warn = true ∧
    (StdFilter.mk Warn Error).IsEnabled Error = true :=
  ⟨by decide, by decide,
    stdFilter_enabled_monotone (StdFilter.mk Warn Error) Error Warn (by decide) (by decide)⟩

/-- Counterexample to claim C2 as stated: the fallback filter installed by
`Start` for a nil filter is `StdFilter{Lvl: Fatal}`, and it enables Fatal,
which is not the most severe level (Panic has strictly lower rank) — so it
is false that only the most severe level is enabled. -/
theorem startFilter_fallback_not_only_most_severe :
    Panic.ID < Fatal.ID ∧ (Basic.startFilter none).IsEnabled Fatal = true := by
  exact ⟨by decide, by decide⟩

/-- Claim C2 amended: with a nil filter, `Start` installs
`StdFilter{Lvl: Fatal}`, under which a severity is enabled exactly when its
rank is at most Fatal's rank 1 — i.e. Panic and Fatal are enabled and every
less severe named level is disabled. -/
theorem startFilter_fallback_spec :
    (∀ lvl : Level, (Basic.startFilter none).IsEnabled lvl = decide (lvl.ID ≤ Fatal.ID)) ∧
    (Basic.startFilter none).IsEnabled Panic = true ∧
    (Basic.startFilter none).IsEnabled Fatal = true ∧
    (Basic.startFilter none).IsEnabled Error = false ∧
    (Basic.startFilter none).IsEnabled Warn = false ∧
    (Basic.startFilter none).IsEnabled Info = false ∧
    (Basic.startFilter none).IsEnabled Debug = false ∧
    (Basic.startFilter none).IsEnabled Trace = false := by
  refine ⟨fun lvl => rfl, ?_, ?_, ?_, ?_, ?_, ?_, ?_⟩ <;> decide

/-- Claim C10: a severity whose rank matches no named constant but which is
enabled is returned unchanged by `GetEnabledLevel` apart from the
stacktrace flag, and the two rank comparisons behave exactly as for named
severities. -/
theorem getEnabledLevel_unnamed_rank (lt : StdFilter) (level : Level)
    (h0 : level.ID ≠ Panic.ID) (h1 : level.ID ≠ Fatal.ID)
    (h2 : level.ID ≠ Error.ID) (h3 : level.ID ≠ Warn.ID)
    (h4 : level.ID ≠ Info.ID) (h5 : level.ID ≠ Debug.ID)
    (h6 : level.ID ≠ Trace.ID) (hen : level.ID ≤ lt.Lvl.ID) :
    lt.GetEnabledLevel level =
      ((if level.ID ≤ lt.Stacktrace.ID then { level with Stacktrace := true } else level),
        true) := by
  have e : decide (level.ID ≤ lt.Lvl.ID) = true := decide_eq_true hen
  unfold StdFilter.GetEnabledLevel
  simp only [e, if_true, if_neg h0, if_neg h1, if_neg h2, if_neg h3, if_neg h4, if_neg h5,
    if_neg h6]
  by_cases hst : level.ID ≤ lt.Stacktrace.ID
  · simp [decide_eq_true hst, hst]
  · simp [decide_eq_false hst, hst]

/-- Witness for C10 at an unnamed rank: severity rank 50 against a filter
with level threshold rank 100 and stacktrace threshold Error. -/
theorem getEnabledLevel_unnamed_rank_witness :
    (StdFilter.mk { ID := 100 } Error).GetEnabledLevel { ID := 50, Name := "custom" } =
      ({ ID := 50, Name := "custom" }, true) := by
  simpa using getEnabledLevel_unnamed_rank (StdFilter.mk { ID := 100 } Error)
    { ID := 50, Name := "custom" } (by decide) (by decide) (by decide) (by decide)
    (by decide) (by decide) (by decide) (by decide)

/-- Helper: the enqueue-timeout error message starts with the phrase
"target enqueue timeout". -/
theorem enqueueTimeoutMsg_split (rec : LogRec) :
    enqueueTimeoutMsg rec =
      "target enqueue timeout" ++ (" for log rec [" ++ (toString rec.id ++ "]")) := by
  unfold enqueueTimeoutMsg
  have hsplit : ("target enqueue timeout for log rec [" : String) =
      "target enqueue timeout" ++ " for log rec [" := by decide
  rw [hsplit, String.append_assoc, String.append_assoc]

/-- Claim C1: backpressure policy of `Log` on a full queue.  If the
overflow handler is registered and returns true, the dropped counter is
incremented by exactly one and the record is discarded with no error and
no dependence on the timeout race.  Otherwise the blocked counter is
incremented by exactly one and the record is enqueued if space frees
before the timeout; on timeout an error starting with
"target enqueue timeout" is reported and the record is discarded. -/
theorem log_queue_full_policy (b : BasicState) (rec : LogRec)
    (handler : Option (LogRec → Nat → Bool)) (spaceFrees : Bool) (d k : Nat)
    (hfull : ¬ b.queue.length < b.cap)
    (hd : b.droppedCounter = some d) (hk : b.blockedCounter = some k) :
    (∀ h, handler = some h → h rec b.cap = true →
      Basic.Log b rec handler spaceFrees = { b with droppedCounter := some (d + 1) }) ∧
    ((handler = none ∨ ∃ h, handler = some h ∧ h rec b.cap = false) →
      (spaceFrees = true →
        Basic.Log b rec handler spaceFrees =
          { b with blockedCounter := some (k + 1), queue := b.queue ++ [rec] }) ∧
      (spaceFrees = false →
        Basic.Log b rec handler spaceFrees =
          { b with blockedCounter := some (k + 1),
                   reported := b.reported ++ [enqueueTimeoutMsg rec] } ∧
        ∃ t, enqueueTimeoutMsg rec = "target enqueue timeout" ++ t)) := by
  constructor
  · intro h hh htrue
    subst hh
    unfold Basic.Log
    rw [if_neg hfull]
    simp [htrue, hd, incOpt]
  · intro hblock
    rcases hblock with hnone | ⟨h, hh, hfalse⟩
    · subst hnone
      refine ⟨fun hs => ?_, fun hs => ⟨?_, ⟨_, enqueueTimeoutMsg_split rec⟩⟩⟩ <;> subst hs <;>
        · unfold Basic.Log
          rw [if_neg hfull]
          simp [hk, incOpt]
    · subst hh
      refine ⟨fun hs => ?_, fun hs => ⟨?_, ⟨_, enqueueTimeoutMsg_split rec⟩⟩⟩ <;> subst hs <;>
        · unfold Basic.Log
          rw [if_neg hfull]
          simp [hfalse, hk, incOpt]

/-- Witness for C1: a full queue of capacity 1; an always-drop handler
increments the dropped counter; with no handler, the blocked counter is
incremented and on timeout the enqueue-timeout error is reported. -/
theorem log_queue_full_policy_witness :
    Basic.Log { queue := [{ id := 0 }], cap := 1, droppedCounter := some 0,
                blockedCounter := some 0 }
        { id := 1 } (some fun _ _ => true) true =
      { queue := [{ id := 0 }], cap := 1, droppedCounter := some 1,
        blockedCounter := some 0 } ∧
    Basic.Log { queue := [{ id := 0 }], cap := 1, droppedCounter := some 0,
                blockedCounter := some 0 }
        { id := 1 } none false =
      { queue := [{ id := 0 }], cap := 1, droppedCounter := some 0,
        blockedCounter := some 1,
        reported := ["target enqueue timeout for log rec [1]"] } := by
  constructor
  · exact (log_queue_full_policy _ { id := 1 } _ true 0 0 (by decide) rfl rfl).1
      _ rfl rfl
  · have h := ((log_queue_full_policy
      { queue := [{ id := 0 }], cap := 1, droppedCounter := some 0,
        blockedCounter := some 0 }
      { id := 1 } none false 0 0 (by decide) rfl rfl).2 (Or.inl rfl)).2 rfl
    simpa [enqueueTimeoutMsg] using h.1

/-- Counterexample to claim C3 as stated: even when the shutdown deadline
elapses before the worker signals completion, `Basic.Shutdown` still
returns nil, not a non-nil timeout signal. -/
theorem shutdown_timeout_returns_nil : (Basic.Shutdown false).err = none := rfl

/-- Claim C3 amended: `Shutdown` closes the incoming queue and waits for
the worker's completion signal or the deadline, but returns nil in both
cases; deadline expiry is observable only as an early return, never through
the return value. -/
theorem shutdown_always_nil (doneBeforeDeadline : Bool) :
    (Basic.Shutdown doneBeforeDeadline).err = none ∧
    (Basic.Shutdown doneBeforeDeadline).inClosed = true := ⟨rfl, rfl⟩

/-- Claim C5: an ordinary record dequeued by the worker loop is written
exactly once; a write error increments the error counter by exactly one,
appends the error to the owning logger's error sink and leaves the logged
counter alone, after which the worker continues with the remaining records;
a successful write increments the logged counter by exactly one. -/
theorem worker_ordinary_record (w : LogRec → Option String) (rec : LogRec)
    (rest : List LogRec) (b : BasicState) (n e : Nat)
    (hord : rec.flush = false)
    (hl : b.loggedCounter = some n) (he : b.errorCounter = some e) :
    (∀ err, w rec = some err →
      Basic.start w (rec :: rest) b =
        Basic.start w rest
          { b with errorCounter := some (e + 1), reported := b.reported ++ [err] }) ∧
    (w rec = none →
      Basic.start w (rec :: rest) b =
        Basic.start w rest { b with loggedCounter := some (n + 1) }) := by
  constructor
  · intro err herr
    simp [Basic.start, hord, herr, he, incOpt]
  · intro herr
    simp [Basic.start, hord, herr, hl, incOpt]

/-- Witness for C5: a failing write increments the error counter and
reports the error; a successful write increments the logged counter. -/
theorem worker_ordinary_record_witness :
    Basic.start (fun _ => some "boom") [{ id := 7 }]
        { loggedCounter := some 3, errorCounter := some 0 } =
      { loggedCounter := some 3, errorCounter := some 1, reported := ["boom"] } ∧
    Basic.start (fun _ => none) [{ id := 7 }]
        { loggedCounter := some 3, errorCounter := some 0 } =
      { loggedCounter := some 4, errorCounter := some 0 } := by
  constructor
  · exact (worker_ordinary_record (fun _ => some "boom") { id := 7 } []
      { loggedCounter := some 3, errorCounter := some 0 } 3 0 rfl rfl rfl).1 "boom" rfl
  · exact (worker_ordinary_record (fun _ => none) { id := 7 } []
      { loggedCounter := some 3, errorCounter := some 0 } 3 0 rfl rfl rfl).2 rfl

/-- Helper: a flush drain never changes the logged counter, whatever the
queued records and write outcomes are. -/
theorem flush_preserves_loggedCounter (w : LogRec → Option String)
    (l : List LogRec) : ∀ b : BasicState,
    (Basic.flush w l b).loggedCounter = b.loggedCounter := by
  induction l with
  | nil => intro b; rfl
  | cons rec rest ih =>
    intro b
    unfold Basic.flush
    by_cases hf : rec.flush
    · simp [hf, ih]
    · cases hw : w rec with
      | some err => simp [hf, hw, ih]
      | none => simp [hf, hw, ih]

/-- Claim C6: during a flush drain the logged counter is never changed —
a successfully written record leaves the state untouched — while a failed
write still increments the error counter and reports the error; by
contrast the normal worker loop increments the logged counter on every
successful write. -/
theorem flush_drain_logged_unchanged (w : LogRec → Option String) (b : BasicState) :
    (∀ l, (Basic.flush w l b).loggedCounter = b.loggedCounter) ∧
    (∀ rec rest, rec.flush = false → w rec = none →
      Basic.flush w (rec :: rest) b = Basic.flush w rest b) ∧
    (∀ rec rest err e, rec.flush = false → w rec = some err → b.errorCounter = some e →
      Basic.flush w (rec :: rest) b =
        Basic.flush w rest
          { b with errorCounter := some (e + 1), reported := b.reported ++ [err] }) ∧
    (∀ rec rest n, rec.flush = false → w rec = none → b.loggedCounter = some n →
      Basic.start w (rec :: rest) b =
        Basic.start w rest { b with loggedCounter := some (n + 1) }) := by
  refine ⟨fun l => flush_preserves_loggedCounter w l b, ?_, ?_, ?_⟩
  · intro rec rest hord hw
    simp [Basic.flush, hord, hw]
  · intro rec rest err e hord hw he
    simp [Basic.flush, hord, hw, he, incOpt]
  · intro rec rest n hord hw hl
    simp [Basic.start, hord, hw, hl, incOpt]

/-- Witness for C6: in a flush drain a successful write changes nothing
(logged counter stays 3), a failing write bumps only the error counter,
and the normal loop bumps the logged counter on success. -/
theorem flush_drain_logged_unchanged_witness :
    (Basic.flush (fun _ => none) [{ id := 2 }]
        { loggedCounter := some 3, errorCounter := some 0 }).loggedCounter = some 3 ∧
    Basic.flush (fun _ => some "disk full") [{ id := 2 }]
        { loggedCounter := some 3, errorCounter := some 0 } =
      { loggedCounter := some 3, errorCounter := some 1, reported := ["disk full"] } ∧
    Basic.start (fun _ => none) [{ id := 2 }]
        { loggedCounter := some 3, errorCounter := some 0 } =
      { loggedCounter := some 4, errorCounter := some 0 } := by
  refine ⟨(flush_drain_logged_unchanged (fun _ => none)
      { loggedCounter := some 3, errorCounter := some 0 }).1 [{ id := 2 }], ?_, ?_⟩
  · exact (flush_drain_logged_unchanged (fun _ => some "disk full")
      { loggedCounter := some 3, errorCounter := some 0 }).2.2.1
      { id := 2 } [] "disk full" 0 rfl rfl rfl
  · exact (flush_drain_logged_unchanged (fun _ => none)
      { loggedCounter := some 3, errorCounter := some 0 }).2.2.2
      { id := 2 } [] 3 rfl rfl rfl

/-- Claim C8: the effective metrics-sampler tick interval is the configured
value when it is at least 250, the default 15000 when it is zero, and the
floor 250 for every other value below 250. -/
theorem effectiveUpdateFreq_spec (u : Int) :
    (250 ≤ u → Basic.effectiveUpdateFreq u = u) ∧
    (u = 0 → Basic.effectiveUpdateFreq u = 15000) ∧
    (u ≠ 0 → u < 250 → Basic.effectiveUpdateFreq u = 250) := by
  refine ⟨fun h => ?_, fun h => ?_, fun h hlt => ?_⟩ <;>
    · simp only [Basic.effectiveUpdateFreq, DefMetricsUpdateFreqMillis]
      split_ifs <;> omega

/-- Witness for C8 at 300 (pass-through), 0 (default) and -5 (floor). -/
theorem effectiveUpdateFreq_witness :
    Basic.effectiveUpdateFreq 300 = 300 ∧
    Basic.effectiveUpdateFreq 0 = 15000 ∧
    Basic.effectiveUpdateFreq (-5) = 250 :=
  ⟨(effectiveUpdateFreq_spec 300).1 (by decide),
   (effectiveUpdateFreq_spec 0).2.1 rfl,
   (effectiveUpdateFreq_spec (-5)).2.2 (by decide) (by decide)⟩

/-- Claim C9: `SetMetricsCollector` fails, leaving the logger unchanged,
whenever targets already exist or the collector is nil, and otherwise
stores the collector, obtains the "_logr" gauge/counter handles and
returns nil.  The function is total, so no input panics. -/
theorem setMetricsCollector_spec (l : Logr) (c : Option MetricsCollector) :
    ((l.hasTargets = true ∨ c = none) →
      (l.SetMetricsCollector c).1 = l ∧ (l.SetMetricsCollector c).2 ≠ none) ∧
    (∀ mc, l.hasTargets = false → c = some mc →
      l.SetMetricsCollector c =
        ({ l with metrics := some mc,
                  queueSizeGauge := some (mc.QueueSizeGauge "_logr"),
                  loggedCounter := some (mc.LoggedCounter "_logr"),
                  errorCounter := some (mc.ErrorCounter "_logr") }, none)) := by
  constructor
  · intro herr
    unfold Logr.SetMetricsCollector
    by_cases ht : l.hasTargets
    · simp [ht]
    · rcases herr with h | h
      · exact absurd h ht
      · subst h
        simp [ht]
  · intro mc ht hc
    subst hc
    unfold Logr.SetMetricsCollector
    simp [ht]

/-- A concrete metrics collector used only to witness C9. -/
def testCollector : MetricsCollector :=
  { QueueSizeGauge := fun s => { handle := s },
    LoggedCounter := fun s => { handle := s },
    ErrorCounter := fun s => { handle := s },
    DroppedCounter := fun s => { handle := s },
    BlockedCounter := fun s => { handle := s } }

/-- Witness for C9: with targets present the call fails and leaves the
logger unchanged; on a fresh logger with a real collector it succeeds and
wires the "_logr" handles. -/
theorem setMetricsCollector_witness :
    ((Logr.SetMetricsCollector { hasTargets := true } none).1 = { hasTargets := true } ∧
      (Logr.SetMetricsCollector { hasTargets := true } none).2 ≠ none) ∧
    Logr.SetMetricsCollector { hasTargets := false } (some testCollector) =
      ({ hasTargets := false, metrics := some testCollector,
         queueSizeGauge := some { handle := "_logr" },
         loggedCounter := some { handle := "_logr" },
         errorCounter := some { handle := "_logr" } }, none) :=
  ⟨(setMetricsCollector_spec { hasTargets := true } none).1 (Or.inl rfl),
   (setMetricsCollector_spec { hasTargets := false } (some testCollector)).2
     testCollector rfl rfl⟩

end logr
